import Mathlib

/-!
Verification of the miniLUT viewer (`minilv.py`) against its design
specification.  The program's pure core is embedded shallowly: numpy
axis constructors over exact rationals, the buffer-reshape loader with
its Legacy fallback, the monotonicity check, the AOT sampling choice,
the argument validation, the output-file naming, and the save/exit
control flow.
-/

namespace MiniLV

/-- Embeds `np.arange(start, stop, step)` over exact rationals: the element
count is `ceil((stop - start) / step)` and element `i` is `start + step*i`. -/
def arangeQ (start stop step : ℚ) : List ℚ :=
  (List.range (⌈(stop - start) / step⌉.toNat)).map (fun i => start + step * i)

/-- Embeds `np.linspace(start, stop, num)`: `num` evenly spaced points,
endpoints included. -/
def linspaceQ (start stop : ℚ) (num : Nat) : List ℚ :=
  (List.range num).map (fun i => start + (stop - start) * i / ((num - 1 : Nat) : ℚ))

/-- `nband = np.arange(13)` (`minilv.py` line 51); only its length matters. -/
def nband : List Nat := List.range 13

/-- `vband` wavelength lookup (`minilv.py` line 52). -/
def vband : List Nat := [444, 496, 560, 664, 704, 740, 782, 832, 865, 944, 1373, 1613, 2198]

/-- `rtoa = np.arange(-0.2, 1.2, 0.07)` (`minilv.py` line 53). -/
def rtoa : List ℚ := arangeQ (-0.2) 1.2 0.07

/-- Extended AOT axis: `np.linspace(0., 1.5, 25)` with `[2.0, 3.0]` appended
(`minilv.py` lines 54-55; the variable `tau` before any fallback). -/
def tauExt : List ℚ := linspaceQ 0 1.5 25 ++ [2, 3]

/-- Legacy AOT axis: `np.linspace(0., 1.5, 25)` (`minilv.py` line 86). -/
def tauLegacy : List ℚ := linspaceQ 0 1.5 25

/-- `alt = np.arange(0, 3100, 1000)` (`minilv.py` line 57). -/
def alt : List ℚ := arangeQ 0 3100 1000

/-- The `ftau` tag: `"LUT30"` for the Extended AOT axis, `"LUT15"` after the
Legacy fallback (`minilv.py` lines 56 and 91). -/
inductive TauTag where
  | LUT30
  | LUT15
deriving DecidableEq, Repr

/-- The AOT axis selected by a tag. -/
def tauOf : TauTag → List ℚ
  | .LUT30 => tauExt
  | .LUT15 => tauLegacy

/-- Embeds `ndarray.reshape(d1, d2, d3, d4)` on a flat buffer of `n` elements:
it yields the 4-D shape exactly when the element count matches, and raises
`ValueError` (here: `none`) otherwise. -/
def reshape4 (n d1 d2 d3 d4 : Nat) : Option (Nat × Nat × Nat × Nat) :=
  if n = d1 * d2 * d3 * d4 then some (d1, d2, d3, d4) else none

/-- Result of loading a buffer: the reshaped array's shape, the `ftau` tag,
and whether the fallback warning was printed. -/
structure LoadOutcome where
  shape : Nat × Nat × Nat × Nat
  tag : TauTag
  warned : Bool
deriving DecidableEq, Repr

/-- Embeds the loader (`minilv.py` lines 72-91) on a buffer of `n` float32
elements: first reshape against the Extended shape
`(len(nband), len(rtoa), len(tauExt), len(alt))`; on `ValueError` print the
fallback warning and reshape against the Legacy shape; a second `ValueError`
propagates uncaught (`none`). -/
def load (n : Nat) : Option LoadOutcome :=
  match reshape4 n nband.length rtoa.length tauExt.length alt.length with
  | some s => some ⟨s, .LUT30, false⟩
  | none =>
    match reshape4 n nband.length rtoa.length tauLegacy.length alt.length with
    | some s => some ⟨s, .LUT15, true⟩
    | none => none

/-- Embeds `np.diff`: consecutive differences `a[i+1] - a[i]`. -/
def npDiff : List ℚ → List ℚ
  | [] => []
  | [_] => []
  | a :: b :: rest => (b - a) :: npDiff (b :: rest)

/-- Embeds the monotonicity check `np.all(np.diff(slice) > 0)`
(`minilv.py` line 137); the spec names it `is_monotone_increasing`. -/
def is_monotone_increasing (l : List ℚ) : Bool :=
  (npDiff l).all (fun d => decide (0 < d))

/-- Embeds the AOT sampling choice (`minilv.py` lines 123-131): a curated
subset per tag, overridden by `--all` to every index of the AOT axis. -/
def tauSampling (dims : TauTag) (showall : Bool) (tauLen : Nat) : List Nat :=
  let curated : List Nat :=
    match dims with
    | .LUT30 => [0, 8, 16, 24, 25, 26]
    | .LUT15 => [0, 8, 16, 24]
  if showall then List.range tauLen else curated

/-- The 1-D slice `minilut[band, :, t, level]` paired with the `rtoa` axis
(`minilv.py` line 135), for an array given as an index function. -/
def sliceOf (lut : Nat → Nat → Nat → Nat → ℚ) (band t level : Nat) : List ℚ :=
  (List.range rtoa.length).map (fun r => lut band r t level)

/-- The AOT indices for which the plotting loop (`minilv.py` lines 133-139)
prints a non-monotone warning: the sampled indices whose slice fails the
monotonicity check. -/
def warnIndices (lut : Nat → Nat → Nat → Nat → ℚ) (dims : TauTag) (showall : Bool)
    (band level : Nat) : List Nat :=
  (tauSampling dims showall (tauOf dims).length).filter
    (fun t => !(is_monotone_increasing (sliceOf lut band t level)))

/-- Embeds the argument checks (`minilv.py` lines 59-66): the program exits
with a usage error iff `args.band > len(nband)` or `args.level > len(alt)`. -/
def usageError (band level : Int) : Bool :=
  decide (band > (nband.length : Int)) || decide (level > (alt.length : Int))

/-- Embeds Python sequence indexing with length `n`: a nonnegative index must
be `< n`; a negative index `i` selects position `n + i` when `-n ≤ i`;
anything else raises `IndexError` (`none`). -/
def pyIndexResolve (n : Nat) (i : Int) : Option Nat :=
  if 0 ≤ i then
    if i < (n : Int) then some i.toNat else none
  else
    if 0 ≤ i + (n : Int) then some (i + (n : Int)).toNat else none

/-- Embeds Python string slicing `s[:-k]`: drop the last `k` characters. -/
def pyDropLast (s : String) (k : Nat) : String :=
  ⟨s.data.take (s.data.length - k)⟩

/-- Embeds the output-name derivation
`args.FILE[:-4] + "_B" + str(args.band+1) + "_L" + str(args.level) + ".png"`
(`minilv.py` line 103). -/
def outName (file : String) (band level : Int) : String :=
  pyDropLast file 4 ++ "_B" ++ toString (band + 1) ++ "_L" ++ toString level ++ ".png"

/-- Messages surrounding figure saving and completion. -/
inductive Msg where
  | warnNoWrite
  | infoDone
deriving DecidableEq, Repr

/-- Python exception kinds relevant to the script. -/
inductive PyErr where
  | permissionError
  | valueError
  | fileNotFound
  | other
deriving DecidableEq, Repr

/-- Embeds `pl.savefig(filename, ...)`: raises `PermissionError` when the
destination is not writable. -/
def savefig (writable : Bool) : Except PyErr Unit :=
  if writable then .ok () else .error .permissionError

/-- Embeds the `try/except PermissionError` around `savefig`
(`minilv.py` lines 143-147): the permission failure is caught and turned
into a warning; any other exception would propagate. -/
def miniplotSaveStep (writable : Bool) : List Msg × Except PyErr Unit :=
  match savefig writable with
  | .ok _ => ([], .ok ())
  | .error .permissionError => ([Msg.warnNoWrite], .ok ())
  | .error e => ([], .error e)

/-- Embeds the tail of `main` (`minilv.py` lines 104-108): after `miniplot`
returns, print `INFO: Done...` and `sys.exit(0)`; an exception escaping
`miniplot` would skip both. -/
def mainFinish (writable : Bool) : List Msg × Except PyErr Nat :=
  match miniplotSaveStep writable with
  | (msgs, .ok _) => (msgs ++ [Msg.infoDone], .ok 0)
  | (msgs, .error e) => (msgs, .error e)

/-! Axis lengths.  Rational arithmetic does not reduce in the kernel, so the
lengths driven by `np.arange`'s ceiling computation are established once and
rewritten with everywhere. -/

lemma rtoa_length_eq : rtoa.length = 20 := by
  unfold rtoa arangeQ
  simp only [List.length_map, List.length_range]
  rw [show ((1.2 - (-0.2)) / 0.07 : ℚ) = 20 by norm_num]
  rw [show ⌈(20 : ℚ)⌉ = 20 from Int.ceil_ofNat 20]
  rfl

lemma alt_length_eq : alt.length = 4 := by
  unfold alt arangeQ
  simp only [List.length_map, List.length_range]
  rw [show ((3100 - 0) / 1000 : ℚ) = 31 / 10 by norm_num]
  rw [show ⌈(31 / 10 : ℚ)⌉ = 4 by rw [Int.ceil_eq_iff]; norm_num]
  rfl

lemma nband_length_eq : nband.length = 13 := rfl

lemma tauExt_length_eq : tauExt.length = 27 := rfl

lemma tauLegacy_length_eq : tauLegacy.length = 25 := rfl

/-! Characterisation of the monotonicity check. -/

lemma isMono_cons_cons (a b : ℚ) (l : List ℚ) :
    is_monotone_increasing (a :: b :: l) =
      (decide (a < b) && is_monotone_increasing (b :: l)) := by
  simp [is_monotone_increasing, npDiff, sub_pos]

lemma isMono_iff_chain (l : List ℚ) :
    is_monotone_increasing l = true ↔ List.Chain' (· < ·) l := by
  induction l with
  | nil => simp [is_monotone_increasing, npDiff]
  | cons a t ih =>
    cases t with
    | nil => simp [is_monotone_increasing, npDiff]
    | cons b r =>
      rw [isMono_cons_cons, List.chain'_cons, Bool.and_eq_true, decide_eq_true_eq, ih]

lemma isMono_iff_get (l : List ℚ) :
    is_monotone_increasing l = true ↔
      ∀ i (h : i + 1 < l.length), l.get ⟨i, Nat.lt_of_succ_lt h⟩ < l.get ⟨i + 1, h⟩ := by
  rw [isMono_iff_chain, List.chain'_iff_get]
  constructor
  · intro h i hi
    exact h i (by omega)
  · intro h i hi
    exact h i (by omega)

lemma isMono_range_map (n : Nat) (f : Nat → ℚ) :
    is_monotone_increasing ((List.range n).map f) = true ↔
      ∀ i, i + 1 < n → f i < f (i + 1) := by
  rw [isMono_iff_get]
  constructor
  · intro h i hi
    have := h i (by simpa using hi)
    simpa using this
  · intro h i hi
    have hi' : i + 1 < n := by simpa using hi
    simpa using h i hi'

lemma isMono_sliceOf_iff (lut : Nat → Nat → Nat → Nat → ℚ) (b t lvl : Nat) :
    is_monotone_increasing (sliceOf lut b t lvl) = true ↔
      ∀ r, r + 1 < rtoa.length → lut b r t lvl < lut b (r + 1) t lvl :=
  isMono_range_map rtoa.length (fun r => lut b r t lvl)

/-- Claim C1: the spec requires every band index outside [0,13) and every level
index outside [0,4) to be rejected as a usage error before any file access; in
the code the checks compare with strict `>` against the axis lengths, so
`band = 13` and `level = 4` pass validation (and the input file is then
opened) even though they resolve to no element of the band/altitude axes,
while only `band ≥ 14` and `level ≥ 5` are rejected. -/
theorem band_level_check_off_by_one :
    usageError 13 4 = false ∧
    usageError 14 4 = true ∧
    usageError 13 5 = true ∧
    pyIndexResolve nband.length 13 = none ∧
    pyIndexResolve alt.length 4 = none := by
  refine ⟨?_, ?_, ?_, ?_, ?_⟩ <;>
    simp only [usageError, pyIndexResolve, nband_length_eq, alt_length_eq] <;> decide

/-- Claim C2, counterexample: the code strips exactly 4 characters from the
input name (`args.FILE[:-4]`), so for `"sample.minilut"` (8-character extension
`.minilut`) the output name keeps `.min` and is not `"sample_B2_L0.png"`. -/
theorem outName_example_counterexample :
    outName "sample.minilut" 1 0 = "sample.min_B2_L0.png" ∧
    outName "sample.minilut" 1 0 ≠ "sample_B2_L0.png" := by
  constructor <;> decide

/-- Claim C2, amended: the output image name is derived deterministically by
stripping the last 4 characters of the input name and appending
`_B<band+1>_L<level>.png`; for input `"sample.minilut"` with band index 1 and
level index 0 the output is `"sample.min_B2_L0.png"`. -/
theorem outName_strips_last_four :
    (∀ (stem tail4 : String) (b l : Int), tail4.length = 4 →
      outName (stem ++ tail4) b l =
        stem ++ "_B" ++ toString (b + 1) ++ "_L" ++ toString l ++ ".png") ∧
    outName "sample.minilut" 1 0 = "sample.min_B2_L0.png" := by
  constructor
  · intro stem tail4 b l h
    obtain ⟨sd⟩ := stem
    obtain ⟨td⟩ := tail4
    have htd : td.length = 4 := h
    have key : pyDropLast (String.mk sd ++ String.mk td) 4 = String.mk sd := by
      show String.mk ((sd ++ td).take ((sd ++ td).length - 4)) = String.mk sd
      rw [List.length_append, htd, Nat.add_sub_cancel, List.take_left]
    unfold outName
    rw [key]
  · decide

/-- Witness for the amended C2 at a concrete stem and 4-character tail. -/
theorem outName_strips_last_four_witness :
    outName ("sample" ++ ".min") 1 0 =
      "sample" ++ "_B" ++ toString ((1 : Int) + 1) ++ "_L" ++ toString (0 : Int) ++ ".png" :=
  outName_strips_last_four.1 "sample" ".min" 1 0 (by decide)

/-- Claim C3: a buffer of exactly `len(nband)*len(rtoa)*len(tauExt)*len(alt)`
float32 elements reshapes successfully on the first attempt: the loader
returns the Extended 4-D shape with the `LUT30` tag and no fallback warning. -/
theorem load_extended_ok :
    ∀ n, n = nband.length * rtoa.length * tauExt.length * alt.length →
      load n = some ⟨(nband.length, rtoa.length, tauExt.length, alt.length),
        TauTag.LUT30, false⟩ := by
  intro n h
  simp [load, reshape4, h]

/-- Witness for C3 at the concrete Extended buffer length 13*20*27*4 = 28080. -/
theorem load_extended_ok_witness :
    load 28080 = some ⟨(nband.length, rtoa.length, tauExt.length, alt.length),
      TauTag.LUT30, false⟩ :=
  load_extended_ok 28080
    (by simp [nband_length_eq, rtoa_length_eq, tauExt_length_eq, alt_length_eq])

/-- Claim C4: a buffer of exactly `len(nband)*len(rtoa)*len(tauLegacy)*len(alt)`
elements fails the Extended reshape, so the loader emits the fallback warning,
retries with the Legacy shape, and returns the `LUT15` tag; execution
continues normally. -/
theorem load_legacy_fallback :
    ∀ n, n = nband.length * rtoa.length * tauLegacy.length * alt.length →
      load n = some ⟨(nband.length, rtoa.length, tauLegacy.length, alt.length),
        TauTag.LUT15, true⟩ := by
  intro n h
  have hne : n ≠ nband.length * rtoa.length * tauExt.length * alt.length := by
    rw [h, nband_length_eq, rtoa_length_eq, tauExt_length_eq, tauLegacy_length_eq,
      alt_length_eq]
    decide
  unfold load reshape4
  rw [if_neg hne, if_pos h]

/-- Witness for C4 at the concrete Legacy buffer length 13*20*25*4 = 26000. -/
theorem load_legacy_fallback_witness :
    load 26000 = some ⟨(nband.length, rtoa.length, tauLegacy.length, alt.length),
      TauTag.LUT15, true⟩ :=
  load_legacy_fallback 26000
    (by simp [nband_length_eq, rtoa_length_eq, tauLegacy_length_eq, alt_length_eq])

/-- Claim C5: a buffer whose element count matches neither the Extended nor the
Legacy shape makes both reshapes fail; the second `ValueError` propagates
uncaught, so the loader returns no array at all. -/
theorem load_unrecognized_fatal :
    ∀ n, n ≠ nband.length * rtoa.length * tauExt.length * alt.length →
      n ≠ nband.length * rtoa.length * tauLegacy.length * alt.length →
      load n = none := by
  intro n h1 h2
  simp [load, reshape4, h1, h2]

/-- Witness for C5 at the concrete buffer length 12345. -/
theorem load_unrecognized_fatal_witness : load 12345 = none :=
  load_unrecognized_fatal 12345
    (by rw [nband_length_eq, rtoa_length_eq, tauExt_length_eq, alt_length_eq]; decide)
    (by rw [nband_length_eq, rtoa_length_eq, tauLegacy_length_eq, alt_length_eq]; decide)

/-- Claim C6: the monotonicity check returns true iff every consecutive pair of
the slice satisfies `slice[i+1] > slice[i]` (strict); empty and singleton
sequences are vacuously true, and the five concrete examples of the spec
evaluate as stated. -/
theorem is_monotone_increasing_spec :
    (∀ l : List ℚ, is_monotone_increasing l = true ↔
      ∀ i (h : i + 1 < l.length),
        l.get ⟨i, Nat.lt_of_succ_lt h⟩ < l.get ⟨i + 1, h⟩) ∧
    is_monotone_increasing [1, 2, 3] = true ∧
    is_monotone_increasing [1, 3, 2] = false ∧
    is_monotone_increasing [5] = true ∧
    is_monotone_increasing [] = true ∧
    is_monotone_increasing [2, 2, 3] = false := by
  refine ⟨isMono_iff_get, ?_, ?_, ?_, ?_, ?_⟩ <;>
    simp [is_monotone_increasing, npDiff] <;> norm_num

/-- Witness for C6: the characterisation applied to `[1, 2, 3]` at index 0. -/
theorem is_monotone_increasing_spec_witness :
    ([1, 2, 3] : List ℚ).get ⟨0, by decide⟩ < ([1, 2, 3] : List ℚ).get ⟨1, by decide⟩ :=
  (is_monotone_increasing_spec.1 [1, 2, 3]).mp is_monotone_increasing_spec.2.1 0 (by decide)

/-- Claim C8: the default AOT sampling is exactly `[0, 8, 16, 24, 25, 26]` for
the Extended variant and `[0, 8, 16, 24]` for the Legacy variant, and `--all`
selects every index of the AOT axis (27 for Extended, 25 for Legacy). -/
theorem tauSampling_spec :
    tauSampling TauTag.LUT30 false tauExt.length = [0, 8, 16, 24, 25, 26] ∧
    tauSampling TauTag.LUT15 false tauLegacy.length = [0, 8, 16, 24] ∧
    tauSampling TauTag.LUT30 true tauExt.length = List.range 27 ∧
    tauSampling TauTag.LUT15 true tauLegacy.length = List.range 25 := by
  refine ⟨?_, ?_, ?_, ?_⟩ <;> decide

/-- Claim C9: when saving the figure fails for lack of write permission, the
`PermissionError` is caught and turned into a warning, `miniplot` returns
normally, and `main` still prints the completion message and exits with
status 0 (shown next to the writable run for comparison). -/
theorem save_failure_nonfatal :
    mainFinish false = ([Msg.warnNoWrite, Msg.infoDone], Except.ok 0) ∧
    mainFinish true = ([Msg.infoDone], Except.ok 0) :=
  ⟨rfl, rfl⟩

/-- Claim C10, counterexample: a negative band index passes argument validation
for any magnitude, but for `band = -14` (beyond `-len(band axis)`) the band
axis access raises `IndexError` instead of selecting an element from the end,
so no plot is rendered. -/
theorem negative_index_counterexample :
    usageError (-14) 0 = false ∧ pyIndexResolve nband.length (-14) = none := by
  constructor
  · simp only [usageError, nband_length_eq, alt_length_eq]; decide
  · rw [nband_length_eq]; decide

/-- Claim C10, amended: a negative band or level index is never reported as a
usage error (the checks only compare upward), and when the negative index is
within `[-axis length, 0)` the subsequent Python indexing selects the element
counted from the end of the corresponding axis, so the plot is rendered; a
negative index below `-axis length` still passes validation but fails with
`IndexError` during plotting. -/
theorem negative_index_validation :
    ∀ b l : Int,
      (b < 0 → usageError b 0 = false) ∧
      (l < 0 → usageError 0 l = false) ∧
      (-13 ≤ b → b < 0 → pyIndexResolve nband.length b = some (b + 13).toNat) ∧
      (-4 ≤ l → l < 0 → pyIndexResolve alt.length l = some (l + 4).toNat) := by
  intro b l
  refine ⟨?_, ?_, ?_, ?_⟩
  · intro hb
    simp only [usageError, nband_length_eq, alt_length_eq, Nat.cast_ofNat,
      Bool.or_eq_false_iff, decide_eq_false_iff_not]
    constructor <;> omega
  · intro hl
    simp only [usageError, nband_length_eq, alt_length_eq, Nat.cast_ofNat,
      Bool.or_eq_false_iff, decide_eq_false_iff_not]
    constructor <;> omega
  · intro h1 h2
    simp only [pyIndexResolve, nband_length_eq, Nat.cast_ofNat]
    rw [if_neg (by omega), if_pos (by omega)]
  · intro h1 h2
    simp only [pyIndexResolve, alt_length_eq, Nat.cast_ofNat]
    rw [if_neg (by omega), if_pos (by omega)]

/-- Witness for the amended C10 at band index -1 and level index -1. -/
theorem negative_index_validation_witness :
    usageError (-1) 0 = false ∧ usageError 0 (-1) = false ∧
    pyIndexResolve nband.length (-1) = some ((-1 : Int) + 13).toNat ∧
    pyIndexResolve alt.length (-1) = some ((-1 : Int) + 4).toNat :=
  ⟨(negative_index_validation (-1) (-1)).1 (by decide),
   (negative_index_validation (-1) (-1)).2.1 (by decide),
   (negative_index_validation (-1) (-1)).2.2.1 (by decide) (by decide),
   (negative_index_validation (-1) (-1)).2.2.2 (by decide) (by decide)⟩

/-- Claim C7: for an Extended-variant array whose slice at AOT index 8 (for
band 0, level 0) is constant while the slices at the other default sampling
indices {0, 16, 24, 25, 26} are strictly increasing, rendering band 0 at
level 0 with default sampling warns for exactly the AOT index 8, whose AOT
value on the Extended axis is 0.5. -/
theorem default_sampling_single_warning :
    ∀ lut : Nat → Nat → Nat → Nat → ℚ,
      (∀ r, r < rtoa.length → lut 0 r 8 0 = lut 0 0 8 0) →
      (∀ t, t ∈ ([0, 16, 24, 25, 26] : List Nat) →
        ∀ r, r + 1 < rtoa.length → lut 0 r t 0 < lut 0 (r + 1) t 0) →
      warnIndices lut TauTag.LUT30 false 0 0 = [8] ∧
      (tauOf TauTag.LUT30).get? 8 = some (1 / 2) := by
  intro lut hconst hinc
  constructor
  · have h8 : is_monotone_increasing (sliceOf lut 0 8 0) = false := by
      rw [Bool.eq_false_iff]
      intro hmono
      have h01 := (isMono_sliceOf_iff lut 0 8 0).mp hmono 0
        (by rw [rtoa_length_eq]; omega)
      rw [hconst 1 (by rw [rtoa_length_eq]; omega)] at h01
      exact lt_irrefl _ h01
    have hmonOf : ∀ t, t ∈ ([0, 16, 24, 25, 26] : List Nat) →
        is_monotone_increasing (sliceOf lut 0 t 0) = true := by
      intro t ht
      exact (isMono_sliceOf_iff lut 0 t 0).mpr (hinc t ht)
    have h0 := hmonOf 0 (by simp)
    have h16 := hmonOf 16 (by simp)
    have h24 := hmonOf 24 (by simp)
    have h25 := hmonOf 25 (by simp)
    have h26 := hmonOf 26 (by simp)
    unfold warnIndices
    have hsamp : tauSampling TauTag.LUT30 false (tauOf TauTag.LUT30).length =
        [0, 8, 16, 24, 25, 26] := rfl
    rw [hsamp]
    simp [List.filter, h0, h8, h16, h24, h25, h26]
  · have hval : (tauOf TauTag.LUT30).get? 8 =
        some (0 + (1.5 - 0) * ((8 : Nat) : ℚ) / (((25 - 1 : Nat)) : ℚ)) := rfl
    rw [hval]
    norm_num

/-- Witness for C7: a concrete Extended array that is constant in the
reflectance direction at AOT index 8 and strictly increasing elsewhere. -/
theorem default_sampling_single_warning_witness :
    warnIndices (fun _ r t _ => if t = 8 then 0 else (r : ℚ))
      TauTag.LUT30 false 0 0 = [8] := by
  refine (default_sampling_single_warning _ ?_ ?_).1
  · intro r hr
    rfl
  · intro t ht r hr
    fin_cases ht <;> simp [Nat.cast_lt]

end MiniLV
